import Mathlib

/-!
Verification development for the `monad_monitor` core
(`huginn.py`, `cross_validation.py`, `state_machine.py`, monitor loop of `main.py`).

The Python code is shallowly embedded:
* JSON/dynamically-typed values are `JVal`; Python runtime errors that can
  escape a function are modelled with `Except PyErr`.
* Python `float` arithmetic is modelled exactly over `ℚ` (the claims under
  study never depend on rounding of binary floats).
* Wall-clock `time.time()` is threaded as an explicit `ℚ` argument; within a
  single client call the clock is modelled as constant.
-/

/-- Python exceptions that the embedded code can raise (only the kinds the
modelled code paths can actually produce). -/
inductive PyErr where
  | attributeError
  | typeError
  | zeroDivisionError
deriving DecidableEq, Repr

/-- JSON / dynamically-typed Python values as delivered by `response.json()`
and `json.load`. -/
inductive JVal where
  | null
  | bool (b : Bool)
  | int (n : Int)
  | float (q : ℚ)
  | str (s : String)
  | arr (xs : List JVal)
  | obj (fields : List (String × JVal))

namespace JVal

/-- Python `v is None`. -/
def isNull : JVal → Bool
  | .null => true
  | _ => false

/-- Python truthiness of a value (`if data:` / `x or y`). -/
def truthy : JVal → Bool
  | .null => false
  | .bool b => b
  | .int n => n != 0
  | .float q => q != 0
  | .str s => s != ""
  | .arr xs => !xs.isEmpty
  | .obj fs => !fs.isEmpty

/-- First-match lookup in a dict's field list. -/
def lookup (fields : List (String × JVal)) (k : String) : Option JVal :=
  match fields with
  | [] => none
  | (k', v) :: rest => if k' = k then some v else lookup rest k

/-- Python `data.get(key, default)`: raises `AttributeError` unless `data`
is a dict. -/
def pyGet (data : JVal) (k : String) (default : JVal) : Except PyErr JVal :=
  match data with
  | .obj fields => .ok ((lookup fields k).getD default)
  | _ => .error .attributeError

/-- Python `key in data` for a dict (only used after `data` is known to be a
dict in the embedded code). -/
def hasKey (data : JVal) (k : String) : Bool :=
  match data with
  | .obj fields => (lookup fields k).isSome
  | _ => false

/-- Python `data[key]` on a dict, used only after a `key in data` guard. -/
def index (data : JVal) (k : String) : JVal :=
  match data with
  | .obj fields => (lookup fields k).getD .null
  | _ => .null

/-- Python `x or y`. -/
def pyOr (v default : JVal) : JVal :=
  if truthy v then v else default

/-- Python `v > 0`: defined for int/bool/float, `TypeError` otherwise. -/
def pyGtZero : JVal → Except PyErr Bool
  | .int n => .ok (0 < n)
  | .bool b => .ok b
  | .float q => .ok (0 < q)
  | _ => .error .typeError

/-- Python true division `a / b` of two numeric values (int/bool/float),
`TypeError` for non-numbers, `ZeroDivisionError` for a zero denominator. -/
def pyNum : JVal → Option ℚ
  | .int n => some (n : ℚ)
  | .bool b => some (if b then 1 else 0)
  | .float q => some q
  | _ => none

def pyDiv (a b : JVal) : Except PyErr ℚ :=
  match pyNum a, pyNum b with
  | some x, some y => if y = 0 then .error .zeroDivisionError else .ok (x / y)
  | _, _ => .error .typeError

/-- Python `n - v` with `n` an int and `v` dynamic. -/
def pySubInt (n : Int) (v : JVal) : Except PyErr ℚ :=
  match pyNum v with
  | some y => .ok ((n : ℚ) - y)
  | none => .error .typeError

/-- Python `isinstance(v, int)` (`bool` is a subtype of `int`). -/
def isInstInt : JVal → Bool
  | .int _ => true
  | .bool _ => true
  | _ => false

/-- Numeric value of a `JVal` known to satisfy `isInstInt`. -/
def toInt : JVal → Int
  | .int n => n
  | .bool b => if b then 1 else 0
  | _ => 0

end JVal

/-- Python's `round(x, 2)` (round-half-to-even), modelled over `ℚ`. -/
def roundHalfEven (q : ℚ) : ℤ :=
  let f := ⌊q⌋
  let frac := q - f
  if frac < 1/2 then f
  else if 1/2 < frac then f + 1
  else if f % 2 = 0 then f else f + 1

def roundTo2 (q : ℚ) : ℚ := (roundHalfEven (q * 100) : ℚ) / 100

/-! ### Circuit breaker (`huginn.py`, `CircuitBreaker`) -/

/-- Retry configuration constants from `huginn.py`. -/
def MAX_RETRIES : ℕ := 3
def RETRY_BASE_DELAY : ℚ := 1
def RETRY_MAX_DELAY : ℚ := 5
def CIRCUIT_BREAKER_FAILURE_THRESHOLD : ℕ := 5
def CIRCUIT_BREAKER_RECOVERY_TIME : ℚ := 60
def ACTIVE_SET_ROUND_THRESHOLD : Int := 10000

inductive CircuitState where
  | closed
  | «open»
  | halfOpen
deriving DecidableEq, Repr

structure CircuitBreaker where
  failure_threshold : ℕ := CIRCUIT_BREAKER_FAILURE_THRESHOLD
  recovery_time : ℚ := CIRCUIT_BREAKER_RECOVERY_TIME
  failure_count : ℕ := 0
  state : CircuitState := .closed
  last_failure_time : Option ℚ := none
deriving DecidableEq, Repr

namespace CircuitBreaker

/-- Truthiness of `self.last_failure_time` (a float `0.0` is falsy). -/
def lftTruthy (cb : CircuitBreaker) : Bool :=
  match cb.last_failure_time with
  | none => false
  | some t => t != 0

/-- `CircuitBreaker.can_execute` at wall-clock time `now`; returns the boolean
result together with the (possibly OPEN→HALF_OPEN promoted) breaker. -/
def canExecute (cb : CircuitBreaker) (now : ℚ) : Bool × CircuitBreaker :=
  match cb.state with
  | .closed => (true, cb)
  | .open =>
    if cb.lftTruthy ∧ ∀ t ∈ cb.last_failure_time, cb.recovery_time ≤ now - t then
      (true, { cb with state := .halfOpen })
    else
      (false, cb)
  | .halfOpen => (true, cb)

/-- `CircuitBreaker.record_success`. -/
def recordSuccess (cb : CircuitBreaker) : CircuitBreaker :=
  { cb with failure_count := 0, state := .closed }

/-- `CircuitBreaker.record_failure` at time `now`. -/
def recordFailure (cb : CircuitBreaker) (now : ℚ) : CircuitBreaker :=
  let c := cb.failure_count + 1
  { cb with
      failure_count := c
      last_failure_time := some now
      state := if cb.failure_threshold ≤ c then .open else cb.state }

/-- `CircuitBreaker.is_open`. -/
def isOpen (cb : CircuitBreaker) : Bool := cb.state = .open

end CircuitBreaker

/-! ### `HuginnClient._fetch_with_retry` -/

/-- One HTTP attempt as seen by `_fetch_with_retry`: either a transport
failure (`requests.RequestException`) or a response with a status code and a
body (`none` body = `response.json()` raises `ValueError`). -/
inductive AttemptOutcome where
  | exc
  | resp (status : ℕ) (body : Option JVal)

structure PResponse where
  status : ℕ
  body : Option JVal

inductive BreakerEvent where
  | success
  | failure
deriving DecidableEq, Repr

/-- Trace of one `_fetch_with_retry` attempt loop: the returned response (if
any), the breaker calls it makes, the back-off sleeps between attempts, and
how many attempts were consumed. -/
structure FetchTrace where
  result : Option PResponse
  events : List BreakerEvent
  delays : List ℚ
  attemptsUsed : ℕ

/-- `min(RETRY_BASE_DELAY * (2 ** attempt), RETRY_MAX_DELAY)`. -/
def retryDelay (attempt : ℕ) : ℚ :=
  min (RETRY_BASE_DELAY * 2 ^ attempt) RETRY_MAX_DELAY

/-- The `for attempt in range(MAX_RETRIES)` loop of `_fetch_with_retry`,
with `o` giving each attempt's outcome. `rest.isEmpty` is exactly the code's
`attempt < MAX_RETRIES - 1` test being false; falling off the loop (or a 5xx
on the last attempt) records a breaker failure; any status `< 500` is
terminal and records a success. -/
def fetchAttempts (o : ℕ → AttemptOutcome) : List ℕ → FetchTrace
  | [] => ⟨none, [.failure], [], 0⟩
  | a :: rest =>
    match o a with
    | .resp s body =>
      if s < 500 then ⟨some ⟨s, body⟩, [.success], [], 1⟩
      else if rest.isEmpty then ⟨some ⟨s, body⟩, [.failure], [], 1⟩
      else
        let t := fetchAttempts o rest
        ⟨t.result, t.events, retryDelay a :: t.delays, t.attemptsUsed + 1⟩
    | .exc =>
      if rest.isEmpty then ⟨none, [.failure], [], 1⟩
      else
        let t := fetchAttempts o rest
        ⟨t.result, t.events, retryDelay a :: t.delays, t.attemptsUsed + 1⟩

/-- `HuginnClient._fetch_with_retry`: circuit-breaker gate, then the attempt
loop; breaker events are applied to the breaker in order. -/
def fetchWithRetry (cb : CircuitBreaker) (now : ℚ) (o : ℕ → AttemptOutcome) :
    Option PResponse × CircuitBreaker :=
  let gate := cb.canExecute now
  if gate.1 = false then (none, gate.2)
  else
    let t := fetchAttempts o (List.range MAX_RETRIES)
    (t.result,
     t.events.foldl
       (fun c e =>
         match e with
         | .success => c.recordSuccess
         | .failure => c.recordFailure now)
       gate.2)

/-! ### `ValidatorUptime` and `HuginnClient._parse_uptime_response` -/

/-- `ValidatorUptime` dataclass. Fields that Python stores without type
validation are kept as raw `JVal`s. -/
structure ValidatorUptime where
  validator_id : JVal
  validator_name : JVal
  secp_address : String
  is_active : Bool
  is_ever_active : Bool
  uptime_percent : ℚ
  finalized_count : JVal
  timeout_count : JVal
  total_events : JVal
  last_round : JVal
  last_block_height : JVal
  since_utc : JVal
  fetched_at : ℚ
  round_diff : Option ℚ
  current_network_round : Option Int
  confidence : String

/-- The `uptime_percent` computation of `_parse_uptime_response`:
`(finalized / total_events) * 100` when `total_events > 0`, else `0.0`. -/
def computeUptimePercent (is_ever_active : Bool) (finalized total_events : JVal) :
    Except PyErr ℚ :=
  if is_ever_active then do
    let q ← JVal.pyDiv finalized total_events
    pure (q * 100)
  else
    pure (0 : ℚ)

/-- The `(round_diff, is_active, confidence)` determination of
`_parse_uptime_response` (the season-5.2 fallback logic). -/
def computeActiveStatus (is_ever_active : Bool) (validator_last_round : JVal)
    (current_network_round : Option Int) (used_cached_round : Bool) :
    Except PyErr (Option ℚ × Bool × String) :=
  match current_network_round with
  | some nr =>
    if !validator_last_round.isNull then do
      let rd ← JVal.pySubInt nr validator_last_round
      pure (some rd, decide (rd ≤ (ACTIVE_SET_ROUND_THRESHOLD : ℚ)),
            if used_cached_round then "medium" else "high")
    else
      pure (none, false, if is_ever_active then "unknown" else "high")
  | none =>
    pure ((none : Option ℚ), false, if is_ever_active then "unknown" else "high")

/-- `HuginnClient._parse_uptime_response`.  Raises (`Except.error`) exactly
where the Python raises: `data.get` on a truthy non-dict (`AttributeError`),
ordering comparison or arithmetic on a non-numeric field (`TypeError`). -/
def parseUptimeResponse (secp_address : String) (data : JVal)
    (current_network_round : Option Int) (used_cached_round : Bool)
    (now : ℚ) : Except PyErr (Option ValidatorUptime) := do
  if !data.truthy then
    return none
  let total_events := JVal.pyOr (← data.pyGet "total_events" (.int 0)) (.int 0)
  let is_ever_active ← total_events.pyGtZero
  let finalized := JVal.pyOr (← data.pyGet "finalized_count" (.int 0)) (.int 0)
  let timeouts := JVal.pyOr (← data.pyGet "timeout_count" (.int 0)) (.int 0)
  let uptime_percent ← computeUptimePercent is_ever_active finalized total_events
  let validator_last_round ← data.pyGet "last_round" .null
  let (round_diff, is_active, confidence) ←
    computeActiveStatus is_ever_active validator_last_round
      current_network_round used_cached_round
  let vid ← data.pyGet "validator_id" .null
  let vname ← data.pyGet "validator_name" .null
  let lbh ← data.pyGet "last_block_height" .null
  let since ← data.pyGet "since_utc" .null
  return some
    { validator_id := vid
      validator_name := vname
      secp_address := secp_address
      is_active := is_active
      is_ever_active := is_ever_active
      uptime_percent := roundTo2 uptime_percent
      finalized_count := finalized
      timeout_count := timeouts
      total_events := total_events
      last_round := validator_last_round
      last_block_height := lbh
      since_utc := since
      fetched_at := now
      round_diff := round_diff
      current_network_round := current_network_round
      confidence := confidence }

/-! ### `HuginnClient` state and network-round resolution -/

/-- Client state restricted to a single `(network, secp_address)` pair:
the uptime cache entry (`_cache` / `_cache_times`), the network-round cache
entry (`_network_rounds` / `_network_round_times`) and the network's circuit
breaker. -/
structure ClientState where
  cache : Option (ValidatorUptime × ℚ) := none
  netRound : Option (Int × ℚ) := none
  breaker : CircuitBreaker := {}

/-- `_network_round_ttl` (5 minutes). -/
def NETWORK_ROUND_TTL : ℚ := 300

/-- `REFERENCE_VALIDATOR_IDS` for one network. -/
def REFERENCE_VALIDATOR_IDS : List ℕ := [1, 2, 3, 4, 5]

/-- Body-shape extraction shared by the round-resolution loops:
`data.get("success") and "uptime" in data`, then
`data["uptime"].get("last_round")`, then
`if current_round and isinstance(current_round, int)`.
Returns the accepted round, or `none` when the shape test fails;
propagates the uncaught `AttributeError`s. -/
def extractRound (data : JVal) : Except PyErr (Option Int) := do
  let s ← data.pyGet "success" .null
  if s.truthy ∧ data.hasKey "uptime" then
    let cr ← (data.index "uptime").pyGet "last_round" .null
    if cr.truthy ∧ cr.isInstInt then
      return some cr.toInt
    else
      return none
  else
    return none

/-- The reference-validator loop of `_get_current_network_round` (strategy 2).
`env k` is the attempt stream of the `k`-th `_fetch_with_retry` call issued by
the enclosing client call; `k` is threaded through.  A `ValueError` from
`response.json()` (body `none`) is caught and skipped; `AttributeError` from
a non-dict payload is not caught and propagates. -/
def refLoop (env : ℕ → ℕ → AttemptOutcome) (now : ℚ) :
    List ℕ → ℕ → CircuitBreaker → List Int →
    Except PyErr (List Int × CircuitBreaker × ℕ)
  | [], k, cb, rounds => .ok (rounds, cb, k)
  | _ :: rest, k, cb, rounds =>
    let (resp?, cb') := fetchWithRetry cb now (env k)
    match resp? with
    | none => refLoop env now rest (k + 1) cb' rounds
    | some r =>
      if r.status = 429 then refLoop env now rest (k + 1) cb' rounds
      else if 400 ≤ r.status then refLoop env now rest (k + 1) cb' rounds
      else
        match r.body with
        | none => refLoop env now rest (k + 1) cb' rounds
        | some data => do
          match ← extractRound data with
          | some cr => refLoop env now rest (k + 1) cb' (rounds ++ [cr])
          | none => refLoop env now rest (k + 1) cb' rounds

/-- Python `max()` over a non-empty list. -/
def pyMax : List Int → Int
  | [] => 0
  | x :: xs => xs.foldl max x

/-- `HuginnClient._get_current_network_round`.
`hint` is the result of `_get_active_validator_id_via_gmonads` (`none` when no
gmonads client is configured or no active validator is found).  Returns
`((round?, is_from_cache), state', fetches_consumed)`. -/
def getCurrentNetworkRound (st : ClientState) (now : ℚ) (hint : Option Int)
    (env : ℕ → ℕ → AttemptOutcome) :
    Except PyErr ((Option Int × Bool) × ClientState × ℕ) := do
  -- Fresh round cache: return without any network call.
  let cachedFresh :=
    match st.netRound with
    | some (r, t) => if now - t < NETWORK_ROUND_TTL then some r else none
    | none => none
  match cachedFresh with
  | some r => return ((some r, true), st, 0)
  | none =>
  -- Strategy 1: gmonads-hinted single-validator query.
  let (hinted, cb0, k0) ←
    match hint with
    | none => pure ((none : Option Int), st.breaker, 0)
    | some _ =>
      let (resp?, cb1) := fetchWithRetry st.breaker now (env 0)
      match resp? with
      | some r =>
        if r.status = 200 then
          match r.body with
          | none => pure (none, cb1, 1)     -- json ValueError: caught, falls through
          | some data => do
            let cr ← extractRound data      -- AttributeError propagates
            pure (cr, cb1, 1)
        else
          pure (none, cb1, 1)
      | none => pure (none, cb1, 1)
  match hinted with
  | some cr =>
    return ((some cr, false),
            { st with netRound := some (cr, now), breaker := cb0 }, k0)
  | none =>
  -- Strategy 2: multi-validator fallback, max of successful rounds.
  let (successful_rounds, cb2, k2) ←
    refLoop env now REFERENCE_VALIDATOR_IDS k0 cb0 []
  if !successful_rounds.isEmpty then
    let max_round := pyMax successful_rounds
    return ((some max_round, false),
            { st with netRound := some (max_round, now), breaker := cb2 }, k2)
  else
    -- All queries failed: stale-cache fallback regardless of TTL.
    let cached_round := st.netRound.map Prod.fst
    return ((cached_round, cached_round.isSome),
            { st with breaker := cb2 }, k2)

/-- `HuginnClient.get_validator_uptime` for one `(network, secp_address)`.
`secp_address = none` or `""` is the falsy-address early return; `env` gives
the attempt streams of the successive `_fetch_with_retry` calls (round
resolution first, then the validator's own query). -/
def getValidatorUptime (st : ClientState) (secp_address : Option String)
    (now : ℚ) (check_interval : ℚ) (hint : Option Int)
    (env : ℕ → ℕ → AttemptOutcome) :
    Except PyErr (Option ValidatorUptime × ClientState) := do
  match secp_address with
  | none => return (none, st)
  | some secp =>
  if secp = "" then
    return (none, st)
  else
  -- Uptime cache hit inside `check_interval`.
  let cachedFresh :=
    match st.cache with
    | some (u, t) => if now - t < check_interval then some u else none
    | none => none
  match cachedFresh with
  | some u => return (some u, st)
  | none =>
  let ((current_network_round, used_cached_round), st1, k) ←
    getCurrentNetworkRound st now hint env
  let (resp?, cb) := fetchWithRetry st1.breaker now (env k)
  let st2 := { st1 with breaker := cb }
  match resp? with
  | none => return (st2.cache.map Prod.fst, st2)
  | some r =>
  if r.status = 429 then
    return (st2.cache.map Prod.fst, st2)
  else if 400 ≤ r.status then
    return (st2.cache.map Prod.fst, st2)
  else
    match r.body with
    | none => return (st2.cache.map Prod.fst, st2)   -- json ValueError caught
    | some response_data =>
      let data :=
        match response_data with
        | .obj fields => (JVal.lookup fields "uptime").getD response_data
        | _ => response_data
      let uptime ← parseUptimeResponse secp data current_network_round
        used_cached_round now
      match uptime with
      | some u => return (some u, { st2 with cache := some (u, now) })
      | none => return (none, st2)

/-- `HuginnClient.get_active_set_status`, expressed over the result of the
underlying `get_validator_uptime` call. -/
def getActiveSetStatus (uptime : Option ValidatorUptime) :
    Option Bool × Option String × Option ℚ :=
  match uptime with
  | none => (none, some "Unable to fetch data", none)
  | some u =>
    if !u.is_ever_active then
      (some false, some "Never participated in consensus", some 0)
    else
      match u.round_diff with
      | none => (some true, some "Active (no round comparison available)", none)
      | some rd =>
        if u.is_active then
          (some true, some s!"Active ({rd} rounds behind)", some rd)
        else
          (some false,
           some s!"Inactive ({rd} rounds behind - exceeds threshold of {ACTIVE_SET_ROUND_THRESHOLD})",
           some rd)

/-! ### `CrossValidator._evaluate_sources` (`cross_validation.py`) -/

/-- `CrossValidator._evaluate_sources`: `(confidence, sources_agree,
recommended_status)` from the two optional source verdicts. -/
def evaluateSources (huginn_is_active gmonads_is_active : Option Bool) :
    String × Bool × Bool :=
  match huginn_is_active, gmonads_is_active with
  | none, none => ("low", true, false)
  | some a, none => ("medium", true, a)
  | none, some b => ("medium", true, b)
  | some a, some b =>
    if a = b then ("high", true, a)
    else ("low", false, a)

/-! ### `ValidatorStateMachine` (`state_machine.py`) -/

inductive ValidatorState where
  | NEW
  | ACTIVE
  | INACTIVE
deriving DecidableEq, Repr

/-- `ValidatorState(...)` enum values. -/
def ValidatorState.value : ValidatorState → String
  | .NEW => "new"
  | .ACTIVE => "active"
  | .INACTIVE => "inactive"

/-- `ValidatorState(v)` lookup by value; `none` models the
`ValueError`/`TypeError` that `from_dict` catches. -/
def stateOfValue : JVal → Option ValidatorState
  | .str "new" => some .NEW
  | .str "active" => some .ACTIVE
  | .str "inactive" => some .INACTIVE
  | _ => none

structure StateTransition where
  from_state : ValidatorState
  to_state : ValidatorState
  validator_name : String
  timestamp : ℚ
  metadata : List (String × JVal)

/-- `StateTransition.is_significant`. -/
def StateTransition.is_significant (t : StateTransition) : Bool :=
  t.from_state ≠ t.to_state

structure ValidatorStateMachine where
  validator_name : String
  current_state : ValidatorState
  /-- `_state_entered_at`; a raw `JVal` because `from_dict` assigns whatever
  the persisted field holds, without validation. -/
  state_entered_at : JVal
  /-- `_transition_history`. -/
  history : List StateTransition

/-- `ValidatorStateMachine(name, initial_state)` constructor at time `now`. -/
def mkStateMachine (validator_name : String) (initial_state : Option ValidatorState)
    (now : ℚ) : ValidatorStateMachine :=
  { validator_name := validator_name
    current_state := initial_state.getD .NEW
    state_entered_at := .float now
    history := [] }

/-- `ValidatorStateMachine.update`. -/
def smUpdate (m : ValidatorStateMachine) (is_active is_ever_active : Bool)
    (metadata : List (String × JVal)) (now : ℚ) :
    ValidatorStateMachine × Option StateTransition :=
  let new_state :=
    if is_active then ValidatorState.ACTIVE
    else if is_ever_active then ValidatorState.INACTIVE
    else ValidatorState.NEW
  if new_state = m.current_state then (m, none)
  else
    let t : StateTransition :=
      { from_state := m.current_state
        to_state := new_state
        validator_name := m.validator_name
        timestamp := now
        metadata := metadata }
    ({ m with
        current_state := new_state
        state_entered_at := .float now
        history := m.history ++ [t] },
     some t)

/-- `ValidatorStateMachine.to_dict`. -/
def smToDict (m : ValidatorStateMachine) : JVal :=
  .obj
    [("validator_name", .str m.validator_name),
     ("current_state", .str m.current_state.value),
     ("state_entered_at", m.state_entered_at),
     ("transition_count", .int m.history.length)]

/-- `ValidatorStateMachine.from_dict` at time `now` (corruption-tolerant;
total, mirroring the `try/except` recovery of the source). -/
def smFromDict (data : JVal) (now : ℚ) : ValidatorStateMachine :=
  match data with
  | .obj fields =>
    let vn := (JVal.lookup fields "validator_name").getD .null
    let validator_name :=
      match vn with
      | .str s => if s = "" then "unknown" else s
      | _ => "unknown"
    let csv := (JVal.lookup fields "current_state").getD .null
    let initial_state :=
      if csv.isNull then ValidatorState.NEW
      else (stateOfValue csv).getD ValidatorState.NEW
    { validator_name := validator_name
      current_state := initial_state
      state_entered_at := (JVal.lookup fields "state_entered_at").getD (.float now)
      history := [] }
  | _ =>
    -- `data is None or not isinstance(data, dict)`
    mkStateMachine "unknown" (some .NEW) now

/-! ### Monitor loop state-machine step (`main.py` lines 268–293) -/

/-- One iteration of the monitoring loop's state-machine section, for one
validator.  `is_active` is `health_status.is_active_validator`
(`None`/`True`/`False`); `is_ever_active` is
`huginn_data.get("is_ever_active", False)` when Huginn data is present, and
`False` otherwise; `round_diff_meta` is the metadata dict passed to
`update()`.  Returns the updated machine and the transition handed to the
alert dispatcher (`none` = no alert is emitted). -/
def monitorStep (sm : ValidatorStateMachine) (is_active : Option Bool)
    (is_ever_active : Bool) (round_diff_meta : List (String × JVal))
    (now : ℚ) : ValidatorStateMachine × Option StateTransition :=
  if sm.current_state = ValidatorState.NEW ∧ is_ever_active then
    -- Restart special case: direct assignment, no `update()` call.
    ({ sm with
        current_state :=
          if is_active = some true then ValidatorState.ACTIVE
          else ValidatorState.INACTIVE
        state_entered_at := .float now },
     none)
  else
    -- Huginn-less fallback: infer `is_ever_active` from the current state.
    let ever :=
      if is_ever_active = false ∧ sm.current_state ≠ ValidatorState.NEW then true
      else is_ever_active
    smUpdate sm (is_active.getD false) ever round_diff_meta now

/-- Folding `monitorStep` over a sequence of per-check observations
`(is_active, is_ever_active)`. -/
def monitorRun (sm : ValidatorStateMachine)
    (obs : List (Option Bool × Bool)) (now : ℚ) : ValidatorStateMachine :=
  obs.foldl (fun m o => (monitorStep m o.1 o.2 [] now).1) sm

/-! ### Auxiliary definitions used by the theorems below -/

/-- `_fetch_with_retry`'s attempt loop over the full `range(MAX_RETRIES)`. -/
def fetchTrace3 (o : ℕ → AttemptOutcome) : FetchTrace :=
  fetchAttempts o (List.range MAX_RETRIES)

/-- An attempt outcome is terminal for the retry loop iff it is a response
with status `< 500` (success or client error). -/
def isTerminal : AttemptOutcome → Bool
  | .exc => false
  | .resp s _ => s < 500

/-- The retry loop's `(events, delays, attemptsUsed)` depend only on which
attempts are terminal; this computes them from that profile. -/
def profileRun (p : ℕ → Bool) : List ℕ → List BreakerEvent × List ℚ × ℕ
  | [] => ([.failure], [], 0)
  | a :: rest =>
    if p a then ([.success], [], 1)
    else if rest.isEmpty then ([.failure], [], 1)
    else
      let t := profileRun p rest
      (t.1, retryDelay a :: t.2.1, t.2.2 + 1)

/-- Environment for round resolution in which reference validator `j` either
fails every attempt (transport errors) or immediately reports
`{"success": true, "uptime": {"last_round": r}}`. -/
def mkAttempts : Option Int → ℕ → AttemptOutcome
  | none, _ => .exc
  | some r, _ =>
    .resp 200 (some (.obj
      [("success", .bool true), ("uptime", .obj [("last_round", .int r)])]))

def mkRefEnv (g : ℕ → Option Int) : ℕ → ℕ → AttemptOutcome :=
  fun j => mkAttempts (g j)

/-- The rounds the reference loop collects from `mkRefEnv g`, starting at
fetch index `k` for `n` reference validators. -/
def collectRounds (g : ℕ → Option Int) : ℕ → ℕ → List Int
  | _, 0 => []
  | k, n + 1 =>
    (match g k with | some r => [r] | none => []) ++ collectRounds g (k + 1) n

/-- The spec's round-resolution example: reference validators 1–3 report
rounds 100, 150, 120 and validators 4–5 fail. -/
def gEx : ℕ → Option Int
  | 0 => some 100
  | 1 => some 150
  | 2 => some 120
  | _ => none

/-- Environment exhibiting the C1 failure: all five reference validators
answer with a well-formed round, and the validator's own uptime query returns
HTTP 200 whose JSON body is the non-empty array `[1]`. -/
def crashEnv : ℕ → ℕ → AttemptOutcome :=
  fun j _ =>
    if j < 5 then
      .resp 200 (some (.obj
        [("success", .bool true), ("uptime", .obj [("last_round", .int 150)])]))
    else
      .resp 200 (some (.arr [.int 1]))

/-- A well-typed uptime payload dict, as the Huginn API returns inside
`"uptime"`: integer counters and an optional integer `last_round`. -/
def mkUptimeData (total_events finalized_count timeout_count : Int)
    (last_round : Option Int) : JVal :=
  .obj
    ([("total_events", .int total_events),
      ("finalized_count", .int finalized_count),
      ("timeout_count", .int timeout_count)] ++
     (match last_round with
      | some r => [("last_round", .int r)]
      | none => []))

/-- The projection of a parsed record that the active-determination claim
talks about: `(round_diff, is_active, confidence)`. -/
def uptimeSummary (u : ValidatorUptime) : Option ℚ × Bool × String :=
  (u.round_diff, u.is_active, u.confidence)

/-- A fresh circuit breaker with the given threshold and recovery time
(`CircuitBreaker.__init__`). -/
def failInit (thr : ℕ) (rt : ℚ) : CircuitBreaker :=
  { failure_threshold := thr, recovery_time := rt }

/-- A fresh breaker after consecutive `record_failure()` calls at the listed
times. -/
def failRun (thr : ℕ) (rt : ℚ) (ts : List ℚ) : CircuitBreaker :=
  ts.foldl CircuitBreaker.recordFailure (failInit thr rt)

/-- The record parsed from a well-typed payload with `total_events = 100`
when no network round is available (used to witness the C10 behaviour). -/
def uNoRound : ValidatorUptime :=
  match parseUptimeResponse "a" (mkUptimeData 100 0 10 (some 145)) none false 0 with
  | .ok (some u) => u
  | _ => ValidatorUptime.mk .null .null "" false false 0 .null .null .null .null
      .null .null 0 none none ""

/-! ## Theorems -/

/-- C3: `CrossValidator._evaluate_sources` realises exactly the decision
table: `(None, None)` gives `(low, agree, False)`; a single available source
gives `(medium, agree, that value)`; equal non-null values give
`(high, agree, the value)`; differing non-null values give
`(low, disagree, source_a)` — the primary source wins every disagreement. -/
theorem evaluate_sources_decision_table :
    evaluateSources none none = ("low", true, false) ∧
    (∀ a, evaluateSources (some a) none = ("medium", true, a)) ∧
    (∀ b, evaluateSources none (some b) = ("medium", true, b)) ∧
    (∀ v, evaluateSources (some v) (some v) = ("high", true, v)) ∧
    (∀ a b, a ≠ b → evaluateSources (some a) (some b) = ("low", false, a)) := by
  refine ⟨rfl, ?_, ?_, ?_, ?_⟩ <;> decide

/-- C9: if the state machine is still `NEW` and the observation already shows
`is_ever_active = true`, the monitor assigns `current_state` directly
(`ACTIVE` when `is_active` is truthy, `INACTIVE` otherwise) without calling
`update()`: no transition record is produced (so no "entered active set"
alert is emitted) and the transition history is untouched. -/
theorem monitor_restart_direct_assignment (sm : ValidatorStateMachine)
    (is_active : Option Bool) (meta : List (String × JVal)) (now : ℚ)
    (hnew : sm.current_state = ValidatorState.NEW) :
    monitorStep sm is_active true meta now =
      ({ sm with
          current_state :=
            if is_active = some true then ValidatorState.ACTIVE
            else ValidatorState.INACTIVE
          state_entered_at := .float now }, none) := by
  simp [monitorStep, hnew]

theorem monitor_restart_direct_assignment_witness :
    monitorStep (mkStateMachine "val1" none 0) (some true) true [] 5 =
      ({ mkStateMachine "val1" none 0 with
          current_state :=
            if (some true : Option Bool) = some true then ValidatorState.ACTIVE
            else ValidatorState.INACTIVE
          state_entered_at := .float 5 }, none) :=
  monitor_restart_direct_assignment (mkStateMachine "val1" none 0)
    (some true) [] 5 rfl

/-- `update()` with `is_ever_active = true` can never produce `NEW`. -/
theorem smUpdate_ever_ne_new (m : ValidatorStateMachine) (a : Bool)
    (meta : List (String × JVal)) (now : ℚ)
    (h : m.current_state ≠ ValidatorState.NEW) :
    (smUpdate m a true meta now).1.current_state ≠ ValidatorState.NEW := by
  unfold smUpdate
  by_cases hb : a <;> simp [hb] <;> split <;> simp_all

/-- One monitor-loop iteration never moves a machine that has left `NEW`
back to `NEW`. -/
theorem monitorStep_ne_new (sm : ValidatorStateMachine) (a : Option Bool)
    (e : Bool) (meta : List (String × JVal)) (now : ℚ)
    (h : sm.current_state ≠ ValidatorState.NEW) :
    (monitorStep sm a e meta now).1.current_state ≠ ValidatorState.NEW := by
  unfold monitorStep
  have hc : ¬(sm.current_state = ValidatorState.NEW ∧ e = true) := by
    rintro ⟨h1, -⟩; exact h h1
  rw [if_neg hc]
  have he : (if e = false ∧ sm.current_state ≠ ValidatorState.NEW then true else e)
      = true := by
    cases e <;> simp [h]
  rw [he]
  exact smUpdate_ever_ne_new sm (a.getD false) meta now h

/-- C2: once a validator's lifecycle state machine has left `NEW`, no
sequence of monitor-loop-driven `update()` calls ever returns its
`current_state` to `NEW`. -/
theorem lifecycle_never_returns_to_new (sm : ValidatorStateMachine)
    (obs : List (Option Bool × Bool)) (now : ℚ)
    (h : sm.current_state ≠ ValidatorState.NEW) :
    (monitorRun sm obs now).current_state ≠ ValidatorState.NEW := by
  induction obs generalizing sm with
  | nil => exact h
  | cons o rest ih =>
    exact ih _ (monitorStep_ne_new sm o.1 o.2 [] now h)

theorem lifecycle_never_returns_to_new_witness :
    (monitorRun (ValidatorStateMachine.mk "val2" .ACTIVE (.float 0) [])
      [(some false, false), (none, false), (some true, true)] 3).current_state ≠
      ValidatorState.NEW :=
  lifecycle_never_returns_to_new _ _ _ (by decide)

/-- `ValidatorState(state.value)` recovers the state. -/
theorem stateOfValue_value (s : ValidatorState) :
    stateOfValue (.str s.value) = some s := by
  cases s <;> rfl

/-- C8 counterexample: the persistence round-trip does not reproduce
`validator_name` for a machine whose name is the empty string — `from_dict`
treats the falsy name as corruption and substitutes `"unknown"`. -/
theorem persistence_round_trip_empty_name_cex :
    (smFromDict (smToDict (ValidatorStateMachine.mk "" .NEW (.float 0) [])) 0).validator_name
        = "unknown" ∧
    (ValidatorStateMachine.mk "" .NEW (.float 0) []).validator_name = "" := by
  exact ⟨rfl, rfl⟩

/-- C8 (amended): `from_dict(to_dict(machine))` reproduces `current_state`
for every machine, and reproduces `validator_name` for every machine whose
name is non-empty (an empty name is falsy and recovers to `"unknown"`);
`from_dict({})`, `from_dict(None)` and `from_dict("not a dict")` each yield a
machine in state `NEW` named `"unknown"`, and `from_dict` is a total
function (never raises). -/
theorem persistence_round_trip (m : ValidatorStateMachine) (now : ℚ) :
    (smFromDict (smToDict m) now).current_state = m.current_state ∧
    (m.validator_name ≠ "" →
      (smFromDict (smToDict m) now).validator_name = m.validator_name) ∧
    (∀ t : ℚ, (smFromDict (.obj []) t).current_state = .NEW ∧
      (smFromDict (.obj []) t).validator_name = "unknown") ∧
    (∀ t : ℚ, (smFromDict .null t).current_state = .NEW ∧
      (smFromDict .null t).validator_name = "unknown") ∧
    (∀ t : ℚ, (smFromDict (.str "not a dict") t).current_state = .NEW ∧
      (smFromDict (.str "not a dict") t).validator_name = "unknown") := by
  obtain ⟨name, st, sea, hist⟩ := m
  refine ⟨?_, fun h => ?_, fun t => ⟨rfl, rfl⟩, fun t => ⟨rfl, rfl⟩,
      fun t => ⟨rfl, rfl⟩⟩ <;>
    simp_all [smFromDict, smToDict, JVal.lookup, JVal.isNull, stateOfValue_value]

theorem persistence_round_trip_witness :
    (smFromDict (smToDict (ValidatorStateMachine.mk "" .ACTIVE (.float 3) [])) 0).current_state
        = (ValidatorStateMachine.mk "" .ACTIVE (.float 3) []).current_state ∧
    (smFromDict (smToDict (ValidatorStateMachine.mk "val3" .INACTIVE (.float 7) [])) 0).current_state
        = (ValidatorStateMachine.mk "val3" .INACTIVE (.float 7) []).current_state ∧
    (smFromDict (smToDict (ValidatorStateMachine.mk "val3" .INACTIVE (.float 7) [])) 0).validator_name
        = (ValidatorStateMachine.mk "val3" .INACTIVE (.float 7) []).validator_name ∧
    (∀ t : ℚ, (smFromDict (.obj []) t).current_state = .NEW ∧
      (smFromDict (.obj []) t).validator_name = "unknown") ∧
    (∀ t : ℚ, (smFromDict .null t).current_state = .NEW ∧
      (smFromDict .null t).validator_name = "unknown") ∧
    (∀ t : ℚ, (smFromDict (.str "not a dict") t).current_state = .NEW ∧
      (smFromDict (.str "not a dict") t).validator_name = "unknown") := by
  have h1 := persistence_round_trip (ValidatorStateMachine.mk "" .ACTIVE (.float 3) []) 0
  have h2 := persistence_round_trip (ValidatorStateMachine.mk "val3" .INACTIVE (.float 7) []) 0
  exact ⟨h1.1, h2.1, h2.2.1 (by decide), h2.2.2.1, h2.2.2.2.1, h2.2.2.2.2⟩

/-- Peeling one `Except` bind off a successful computation. -/
theorem except_bind_ok {α β : Type} {e : Except PyErr α}
    {f : α → Except PyErr β} {b : β} (h : e >>= f = .ok b) :
    ∃ a, e = .ok a ∧ f a = .ok b := by
  cases e with
  | error err => simp [Bind.bind, Except.bind] at h
  | ok a => exact ⟨a, rfl, by simpa [Bind.bind, Except.bind] using h⟩

theorem pyOr_int_zero (n : Int) : JVal.pyOr (.int n) (.int 0) = .int n := by
  by_cases h : n = 0 <;> simp [JVal.pyOr, JVal.truthy, h]

theorem computeUptimePercent_false (f t : JVal) :
    computeUptimePercent false f t = .ok 0 := rfl

theorem computeUptimePercent_true_int (fc te : Int) (h : (te : ℚ) ≠ 0) :
    computeUptimePercent true (.int fc) (.int te) =
      .ok (((fc : ℚ) / (te : ℚ)) * 100) := by
  simp [computeUptimePercent, JVal.pyDiv, JVal.pyNum, h, bind, Except.bind,
    pure, Except.pure]

theorem computeActiveStatus_some_int (b uc : Bool) (lr nr : Int) :
    computeActiveStatus b (.int lr) (some nr) uc =
      .ok (some ((nr : ℚ) - (lr : ℚ)),
        decide (((nr : ℚ) - (lr : ℚ)) ≤ (ACTIVE_SET_ROUND_THRESHOLD : ℚ)),
        if uc then "medium" else "high") := by
  simp [computeActiveStatus, JVal.isNull, JVal.pySubInt, JVal.pyNum, bind,
    Except.bind, pure, Except.pure]

theorem computeActiveStatus_no_round (b uc : Bool) (vlr : JVal) :
    computeActiveStatus b vlr none uc =
      .ok (none, false, if b then "unknown" else "high") := rfl

theorem computeActiveStatus_null_lr (b uc : Bool) (nr : Int) :
    computeActiveStatus b .null (some nr) uc =
      .ok (none, false, if b then "unknown" else "high") := rfl

/-- A record parsed with no network round available is never marked active
and carries no round difference. -/
theorem parse_none_round_inactive (secp : String) (data : JVal) (uc : Bool)
    (now : ℚ) (u : ValidatorUptime)
    (h : parseUptimeResponse secp data none uc now = .ok (some u)) :
    u.is_active = false ∧ u.round_diff = none := by
  unfold parseUptimeResponse at h
  by_cases hd : data.truthy
  · simp only [hd, Bool.not_true, Bool.false_eq_true, if_false] at h
    obtain ⟨v1, hv1, h⟩ := except_bind_ok h
    obtain ⟨v2, hv2, h⟩ := except_bind_ok h
    obtain ⟨v3, hv3, h⟩ := except_bind_ok h
    obtain ⟨v4, hv4, h⟩ := except_bind_ok h
    obtain ⟨v5, hv5, h⟩ := except_bind_ok h
    obtain ⟨upc, hupc, h⟩ := except_bind_ok h
    obtain ⟨vlr, hvlr, h⟩ := except_bind_ok h
    obtain ⟨trip, htrip, h⟩ := except_bind_ok h
    obtain ⟨vid, hvid, h⟩ := except_bind_ok h
    obtain ⟨vn, hvn, h⟩ := except_bind_ok h
    obtain ⟨lbh, hlbh, h⟩ := except_bind_ok h
    obtain ⟨snc, hsnc, h⟩ := except_bind_ok h
    rw [computeActiveStatus_no_round] at htrip
    simp only [pure, Except.pure, Except.ok.injEq, Option.some.injEq] at h htrip
    subst h
    subst htrip
    exact ⟨rfl, rfl⟩
  · rw [if_pos (by simp [hd])] at h
    simp [pure, Except.pure] at h

/-- C10: a record fetched with no network round available and
`is_ever_active = true` has `is_active = False`, yet
`get_active_set_status` reports it as active with the message
"Active (no round comparison available)" — the public helper reports active
precisely where the record itself was computed as not-active. -/
theorem active_set_status_no_round_contradiction (secp : String) (data : JVal)
    (uc : Bool) (now : ℚ) (u : ValidatorUptime)
    (h : parseUptimeResponse secp data none uc now = .ok (some u))
    (hever : u.is_ever_active = true) :
    u.is_active = false ∧
    getActiveSetStatus (some u) =
      (some true, some "Active (no round comparison available)", none) := by
  obtain ⟨hact, hrd⟩ := parse_none_round_inactive secp data uc now u h
  refine ⟨hact, ?_⟩
  simp [getActiveSetStatus, hever, hrd]

theorem active_set_status_no_round_contradiction_witness :
    uNoRound.is_active = false ∧
    getActiveSetStatus (some uNoRound) =
      (some true, some "Active (no round comparison available)", none) :=
  active_set_status_no_round_contradiction "a" (mkUptimeData 100 0 10 (some 145))
    false 0 uNoRound (by rfl) (by rfl)

/-- Field lookups on the well-typed payload, pre-reduced. -/
theorem pyGet_mk_total (te fc tc : Int) (lrOpt : Option Int) :
    (mkUptimeData te fc tc lrOpt).pyGet "total_events" (.int 0) = .ok (.int te) := by
  cases lrOpt <;> simp [mkUptimeData, JVal.pyGet, JVal.lookup]

theorem pyGet_mk_fin (te fc tc : Int) (lrOpt : Option Int) :
    (mkUptimeData te fc tc lrOpt).pyGet "finalized_count" (.int 0) = .ok (.int fc) := by
  cases lrOpt <;> simp [mkUptimeData, JVal.pyGet, JVal.lookup]

theorem pyGet_mk_tim (te fc tc : Int) (lrOpt : Option Int) :
    (mkUptimeData te fc tc lrOpt).pyGet "timeout_count" (.int 0) = .ok (.int tc) := by
  cases lrOpt <;> simp [mkUptimeData, JVal.pyGet, JVal.lookup]

theorem pyGet_mk_lr (te fc tc : Int) (lrOpt : Option Int) :
    (mkUptimeData te fc tc lrOpt).pyGet "last_round" .null =
      .ok (match lrOpt with | some r => .int r | none => .null) := by
  cases lrOpt <;> simp [mkUptimeData, JVal.pyGet, JVal.lookup]

theorem pyGet_mk_vid (te fc tc : Int) (lrOpt : Option Int) :
    (mkUptimeData te fc tc lrOpt).pyGet "validator_id" .null = .ok .null := by
  cases lrOpt <;> simp [mkUptimeData, JVal.pyGet, JVal.lookup]

theorem pyGet_mk_vname (te fc tc : Int) (lrOpt : Option Int) :
    (mkUptimeData te fc tc lrOpt).pyGet "validator_name" .null = .ok .null := by
  cases lrOpt <;> simp [mkUptimeData, JVal.pyGet, JVal.lookup]

theorem pyGet_mk_lbh (te fc tc : Int) (lrOpt : Option Int) :
    (mkUptimeData te fc tc lrOpt).pyGet "last_block_height" .null = .ok .null := by
  cases lrOpt <;> simp [mkUptimeData, JVal.pyGet, JVal.lookup]

theorem pyGet_mk_since (te fc tc : Int) (lrOpt : Option Int) :
    (mkUptimeData te fc tc lrOpt).pyGet "since_utc" .null = .ok .null := by
  cases lrOpt <;> simp [mkUptimeData, JVal.pyGet, JVal.lookup]

theorem truthy_mk (te fc tc : Int) (lrOpt : Option Int) :
    (mkUptimeData te fc tc lrOpt).truthy = true := by
  cases lrOpt <;> simp [mkUptimeData, JVal.truthy]

/-- C4: with a network round and a `last_round` available, the parsed record
has `round_diff = network_round - last_round` and
`is_active = (round_diff ≤ ACTIVE_SET_ROUND_THRESHOLD)`, with confidence
"high" for a freshly resolved round and "medium" for a cache-served one;
with no network round (or no `last_round`) and `total_events > 0`, the
record has `is_active = False`, `round_diff = None` and confidence
"unknown". -/
theorem parse_active_determination (secp : String) (nr lr te fc tc : Int)
    (uc : Bool) (now : ℚ) :
    (Except.map (Option.map uptimeSummary)
        (parseUptimeResponse secp (mkUptimeData te fc tc (some lr)) (some nr) uc now) =
      .ok (some (some ((nr : ℚ) - (lr : ℚ)),
        decide (((nr : ℚ) - (lr : ℚ)) ≤ (ACTIVE_SET_ROUND_THRESHOLD : ℚ)),
        if uc then "medium" else "high"))) ∧
    (0 < te →
      Except.map (Option.map uptimeSummary)
        (parseUptimeResponse secp (mkUptimeData te fc tc none) (some nr) uc now) =
      .ok (some (none, false, "unknown"))) ∧
    (0 < te →
      Except.map (Option.map uptimeSummary)
        (parseUptimeResponse secp (mkUptimeData te fc tc (some lr)) none uc now) =
      .ok (some (none, false, "unknown"))) := by
  refine ⟨?_, fun hte => ?_, fun hte => ?_⟩
  · by_cases hp : (0:ℤ) < te
    · simp [parseUptimeResponse, truthy_mk, pyGet_mk_total, pyGet_mk_fin,
        pyGet_mk_tim, pyGet_mk_lr, pyGet_mk_vid, pyGet_mk_vname, pyGet_mk_lbh,
        pyGet_mk_since, pyOr_int_zero, JVal.pyGtZero, hp,
        computeUptimePercent_true_int fc te (Int.cast_ne_zero.mpr (by omega)),
        computeActiveStatus_some_int, bind, Except.bind, pure, Except.pure,
        Except.map, uptimeSummary]
    · simp [parseUptimeResponse, truthy_mk, pyGet_mk_total, pyGet_mk_fin,
        pyGet_mk_tim, pyGet_mk_lr, pyGet_mk_vid, pyGet_mk_vname, pyGet_mk_lbh,
        pyGet_mk_since, pyOr_int_zero, JVal.pyGtZero, hp,
        computeUptimePercent_false, computeActiveStatus_some_int, bind,
        Except.bind, pure, Except.pure, Except.map, uptimeSummary]
  · simp [parseUptimeResponse, truthy_mk, pyGet_mk_total, pyGet_mk_fin,
      pyGet_mk_tim, pyGet_mk_lr, pyGet_mk_vid, pyGet_mk_vname, pyGet_mk_lbh,
      pyGet_mk_since, pyOr_int_zero, JVal.pyGtZero, hte,
      computeUptimePercent_true_int fc te (Int.cast_ne_zero.mpr (by omega)),
      computeActiveStatus_null_lr, bind, Except.bind, pure, Except.pure,
      Except.map, uptimeSummary]
  · simp [parseUptimeResponse, truthy_mk, pyGet_mk_total, pyGet_mk_fin,
      pyGet_mk_tim, pyGet_mk_lr, pyGet_mk_vid, pyGet_mk_vname, pyGet_mk_lbh,
      pyGet_mk_since, pyOr_int_zero, JVal.pyGtZero, hte,
      computeUptimePercent_true_int fc te (Int.cast_ne_zero.mpr (by omega)),
      computeActiveStatus_no_round, bind, Except.bind, pure, Except.pure,
      Except.map, uptimeSummary]

theorem parse_active_determination_witness :
    Except.map (Option.map uptimeSummary)
        (parseUptimeResponse "a" (mkUptimeData 100 90 10 (some 145)) (some 150)
          false 0) =
      .ok (some (some 5, true, "high")) := by
  have h := (parse_active_determination "a" 150 145 100 90 10 false 0).1
  rw [h]
  norm_num [ACTIVE_SET_ROUND_THRESHOLD]

/-- Folding `record_failure` adds one to the failure count per call. -/
theorem foldFailure_count (ts : List ℚ) : ∀ cb : CircuitBreaker,
    (ts.foldl CircuitBreaker.recordFailure cb).failure_count =
      cb.failure_count + ts.length := by
  induction ts with
  | nil => intro cb; simp
  | cons t rest ih =>
    intro cb
    simp only [List.foldl_cons, ih, CircuitBreaker.recordFailure, List.length_cons]
    omega

/-- Folding `record_failure` leaves the configuration fields unchanged. -/
theorem foldFailure_config (ts : List ℚ) : ∀ cb : CircuitBreaker,
    (ts.foldl CircuitBreaker.recordFailure cb).failure_threshold =
        cb.failure_threshold ∧
    (ts.foldl CircuitBreaker.recordFailure cb).recovery_time = cb.recovery_time := by
  induction ts with
  | nil => intro cb; exact ⟨rfl, rfl⟩
  | cons t rest ih =>
    intro cb
    simpa [CircuitBreaker.recordFailure] using ih (cb.recordFailure t)

/-- The last failure time after a non-empty failure fold is the last call's
timestamp. -/
theorem foldFailure_last (ts : List ℚ) (tl : ℚ) : ∀ cb : CircuitBreaker,
    ts.getLast? = some tl →
    (ts.foldl CircuitBreaker.recordFailure cb).last_failure_time = some tl := by
  induction ts with
  | nil => intro cb h; simp at h
  | cons t rest ih =>
    intro cb h
    cases rest with
    | nil =>
      simp at h
      simp [CircuitBreaker.recordFailure, h]
    | cons t2 rest2 =>
      rw [List.getLast?_cons_cons] at h
      exact ih _ h

/-- An OPEN breaker stays OPEN under further failures. -/
theorem foldFailure_open (ts : List ℚ) : ∀ cb : CircuitBreaker,
    cb.state = .open →
    (ts.foldl CircuitBreaker.recordFailure cb).state = .open := by
  induction ts with
  | nil => intro cb h; exact h
  | cons t rest ih =>
    intro cb h
    refine ih _ ?_
    simp only [CircuitBreaker.recordFailure]
    split <;> simp [h]

/-- From CLOSED, a failure fold ends OPEN exactly when the threshold is
reached by the accumulated count. -/
theorem foldFailure_state (ts : List ℚ) : ∀ cb : CircuitBreaker,
    cb.state = .closed → ts ≠ [] →
    cb.failure_threshold ≤ cb.failure_count + ts.length →
    (ts.foldl CircuitBreaker.recordFailure cb).state = .open := by
  induction ts with
  | nil => intro cb _ h; exact absurd rfl h
  | cons t rest ih =>
    intro cb hc _ hthr
    by_cases hr : rest = []
    · subst hr
      simp only [List.length_cons, List.length_nil] at hthr
      simp only [List.foldl_cons, List.foldl_nil, CircuitBreaker.recordFailure]
      rw [if_pos (by omega)]
    · rw [List.foldl_cons]
      by_cases hcross : cb.failure_threshold ≤ cb.failure_count + 1
      · refine foldFailure_open rest _ ?_
        simp only [CircuitBreaker.recordFailure]
        exact if_pos hcross
      · refine ih _ ?_ hr ?_
        · simp only [CircuitBreaker.recordFailure]
          rw [if_neg hcross]
          exact hc
        · simp only [List.length_cons] at hthr
          simp only [CircuitBreaker.recordFailure]
          omega

/-- C5: after `failure_threshold` consecutive `record_failure()` calls the
breaker is OPEN with `can_execute()` false while less than `recovery_time`
has passed since the last failure; once at least `recovery_time` has passed,
`can_execute()` returns true moving the state to HALF_OPEN, and a subsequent
`record_success()` closes the circuit and zeroes the failure count.
(The failure timestamps are positive, as `time.time()` values are.) -/
theorem circuit_breaker_lifecycle (thr : ℕ) (rt : ℚ) (ts : List ℚ) (tl : ℚ)
    (hthr : 0 < thr) (hlen : ts.length = thr) (hlast : ts.getLast? = some tl)
    (hpos : 0 < tl) :
    (failRun thr rt ts).state = .open ∧
    (failRun thr rt ts).failure_count = thr ∧
    (failRun thr rt ts).last_failure_time = some tl ∧
    (∀ now : ℚ, now - tl < rt →
      (failRun thr rt ts).canExecute now = (false, failRun thr rt ts)) ∧
    (∀ now : ℚ, rt ≤ now - tl →
      ((failRun thr rt ts).canExecute now).1 = true ∧
      ((failRun thr rt ts).canExecute now).2.state = .halfOpen ∧
      ((failRun thr rt ts).canExecute now).2.recordSuccess.state = .closed ∧
      ((failRun thr rt ts).canExecute now).2.recordSuccess.failure_count = 0) := by
  have hne : ts ≠ [] := by
    intro h
    rw [h] at hlen
    simp at hlen
    omega
  have hstate : (failRun thr rt ts).state = .open :=
    foldFailure_state ts (failInit thr rt) rfl hne (by simp [failInit, hlen])
  have hcount : (failRun thr rt ts).failure_count = thr := by
    show (ts.foldl CircuitBreaker.recordFailure (failInit thr rt)).failure_count = thr
    rw [foldFailure_count]
    simp [failInit, hlen]
  have hrt : (failRun thr rt ts).recovery_time = rt :=
    (foldFailure_config ts (failInit thr rt)).2
  have hlft : (failRun thr rt ts).last_failure_time = some tl :=
    foldFailure_last ts tl (failInit thr rt) hlast
  have htr : (failRun thr rt ts).lftTruthy = true := by
    simp only [CircuitBreaker.lftTruthy, hlft, bne_iff_ne]
    exact ne_of_gt hpos
  refine ⟨hstate, hcount, hlft, ?_, ?_⟩
  · intro now hlt
    simp only [CircuitBreaker.canExecute, hstate]
    rw [if_neg]
    rintro ⟨-, hall⟩
    refine absurd ?_ (not_le.2 hlt)
    have := hall tl (by rw [hlft]; rfl)
    rwa [hrt] at this
  · intro now hge
    have hcond : (failRun thr rt ts).lftTruthy = true ∧
        ∀ t : ℚ, (failRun thr rt ts).last_failure_time = some t →
          (failRun thr rt ts).recovery_time ≤ now - t := by
      refine ⟨htr, fun t ht => ?_⟩
      rw [hlft, Option.some.injEq] at ht
      rw [hrt, ← ht]
      exact hge
    simp [CircuitBreaker.canExecute, hstate, if_pos hcond,
      CircuitBreaker.recordSuccess]

theorem circuit_breaker_lifecycle_witness :
    (failRun 5 60 [1, 2, 3, 4, 5]).state = .open ∧
    (failRun 5 60 [1, 2, 3, 4, 5]).failure_count = 5 ∧
    (failRun 5 60 [1, 2, 3, 4, 5]).canExecute 30 =
      (false, failRun 5 60 [1, 2, 3, 4, 5]) ∧
    ((failRun 5 60 [1, 2, 3, 4, 5]).canExecute 100).1 = true ∧
    ((failRun 5 60 [1, 2, 3, 4, 5]).canExecute 100).2.state = .halfOpen ∧
    ((failRun 5 60 [1, 2, 3, 4, 5]).canExecute 100).2.recordSuccess.state = .closed ∧
    ((failRun 5 60 [1, 2, 3, 4, 5]).canExecute 100).2.recordSuccess.failure_count = 0 := by
  have h := circuit_breaker_lifecycle 5 60 [1, 2, 3, 4, 5] 5 (by norm_num)
    (by rfl) (by rfl) (by norm_num)
  exact ⟨h.1, h.2.1, h.2.2.2.1 30 (by norm_num),
    (h.2.2.2.2 100 (by norm_num)).1, (h.2.2.2.2 100 (by norm_num)).2.1,
    (h.2.2.2.2 100 (by norm_num)).2.2.1, (h.2.2.2.2 100 (by norm_num)).2.2.2⟩

/-- The retry loop's events, sleeps and attempt count depend only on which
attempts are terminal (`status < 500`). -/
theorem fetchAttempts_profile (o : ℕ → AttemptOutcome) : ∀ l : List ℕ,
    ((fetchAttempts o l).events, (fetchAttempts o l).delays,
      (fetchAttempts o l).attemptsUsed) =
      profileRun (fun a => isTerminal (o a)) l := by
  intro l
  induction l with
  | nil => rfl
  | cons a rest ih =>
    cases ho : o a with
    | exc =>
      by_cases hr : rest.isEmpty <;>
        simp [fetchAttempts, profileRun, ho, hr, ← ih] <;>
        simp [isTerminal]
    | resp s b =>
      by_cases hs : s < 500 <;> by_cases hr : rest.isEmpty <;>
        simp [fetchAttempts, profileRun, ho, hs, hr, ← ih] <;>
        simp [isTerminal, hs]

/-- C7: the retry loop consumes between 1 and `MAX_RETRIES` attempts, never
retries a response with status `< 500` (every non-final attempt is a 5xx or
transport failure; a `< 500` response — any 4xx included — is terminal after
its attempt and is recorded as a breaker success), sleeps
`min(RETRY_BASE_DELAY * 2 ** attempt, RETRY_MAX_DELAY)` between consecutive
attempts, and records exactly one breaker failure precisely when the budget
is exhausted without a status-`< 500` response (and one success otherwise). -/
theorem fetch_retry_policy (o : ℕ → AttemptOutcome) :
    (1 ≤ (fetchTrace3 o).attemptsUsed ∧
      (fetchTrace3 o).attemptsUsed ≤ MAX_RETRIES) ∧
    (∀ i : ℕ, i + 1 < (fetchTrace3 o).attemptsUsed → isTerminal (o i) = false) ∧
    (∀ i : ℕ, i < (fetchTrace3 o).attemptsUsed → isTerminal (o i) = true →
      (fetchTrace3 o).attemptsUsed = i + 1 ∧
      (fetchTrace3 o).events = [.success]) ∧
    ((fetchTrace3 o).delays =
      (List.range ((fetchTrace3 o).attemptsUsed - 1)).map retryDelay) ∧
    (∀ a : ℕ, retryDelay a = min (RETRY_BASE_DELAY * 2 ^ a) RETRY_MAX_DELAY) ∧
    ((fetchTrace3 o).events =
      if ∀ i : ℕ, i < (fetchTrace3 o).attemptsUsed → isTerminal (o i) = false
      then [.failure] else [.success]) := by
  have hprof := fetchAttempts_profile o (List.range MAX_RETRIES)
  have hr3 : List.range MAX_RETRIES = [0, 1, 2] := rfl
  by_cases p0 : isTerminal (o 0) = true
  · have hval : profileRun (fun a => isTerminal (o a)) (List.range MAX_RETRIES) =
        ([.success], [], 1) := by
      rw [hr3]; simp [profileRun, p0]
    rw [hval] at hprof
    simp only [fetchTrace3, Prod.mk.injEq] at hprof ⊢
    obtain ⟨hE, hD, hU⟩ := hprof
    simp only [hE, hD, hU]
    refine ⟨⟨le_refl 1, by norm_num [MAX_RETRIES]⟩, fun i hi => by omega,
      fun i hi ht => ⟨by omega, trivial⟩, by simp, fun a => rfl, ?_⟩
    rw [if_neg]
    intro hall
    exact absurd (hall 0 (by omega)) (by simp [p0])
  · have hp0 : isTerminal (o 0) = false := by simpa using p0
    by_cases p1 : isTerminal (o 1) = true
    · have hval : profileRun (fun a => isTerminal (o a)) (List.range MAX_RETRIES) =
          ([.success], [retryDelay 0], 2) := by
        rw [hr3]; simp [profileRun, hp0, p1]
      rw [hval] at hprof
      simp only [fetchTrace3, Prod.mk.injEq] at hprof ⊢
      obtain ⟨hE, hD, hU⟩ := hprof
      simp only [hE, hD, hU]
      refine ⟨⟨by omega, by norm_num [MAX_RETRIES]⟩, ?_, ?_, ?_, fun a => rfl, ?_⟩
      · intro i hi
        have : i = 0 := by omega
        rw [this]; exact hp0
      · intro i hi ht
        rcases i with _ | _ | i
        · rw [hp0] at ht; cases ht
        · exact ⟨rfl, trivial⟩
        · omega
      · simp [List.range_succ]
      · rw [if_neg]
        intro hall
        exact absurd (hall 1 (by omega)) (by simp [p1])
    · have hp1 : isTerminal (o 1) = false := by simpa using p1
      by_cases p2 : isTerminal (o 2) = true
      · have hval : profileRun (fun a => isTerminal (o a)) (List.range MAX_RETRIES) =
            ([.success], [retryDelay 0, retryDelay 1], 3) := by
          rw [hr3]; simp [profileRun, hp0, hp1, p2]
        rw [hval] at hprof
        simp only [fetchTrace3, Prod.mk.injEq] at hprof ⊢
        obtain ⟨hE, hD, hU⟩ := hprof
        simp only [hE, hD, hU]
        refine ⟨⟨by omega, by norm_num [MAX_RETRIES]⟩, ?_, ?_, ?_, fun a => rfl, ?_⟩
        · intro i hi
          rcases i with _ | _ | i
          · exact hp0
          · exact hp1
          · omega
        · intro i hi ht
          rcases i with _ | _ | i
          · rw [hp0] at ht; cases ht
          · rw [hp1] at ht; cases ht
          · rcases i with _ | i
            · exact ⟨rfl, trivial⟩
            · omega
        · simp [List.range_succ]
        · rw [if_neg]
          intro hall
          exact absurd (hall 2 (by omega)) (by simp [p2])
      · have hp2 : isTerminal (o 2) = false := by simpa using p2
        have hval : profileRun (fun a => isTerminal (o a)) (List.range MAX_RETRIES) =
            ([.failure], [retryDelay 0, retryDelay 1], 3) := by
          rw [hr3]; simp [profileRun, hp0, hp1, hp2]
        rw [hval] at hprof
        simp only [fetchTrace3, Prod.mk.injEq] at hprof ⊢
        obtain ⟨hE, hD, hU⟩ := hprof
        simp only [hE, hD, hU]
        refine ⟨⟨by omega, by norm_num [MAX_RETRIES]⟩, ?_, ?_, ?_, fun a => rfl, ?_⟩
        · intro i hi
          rcases i with _ | _ | i
          · exact hp0
          · exact hp1
          · omega
        · intro i hi ht
          rcases i with _ | _ | i
          · rw [hp0] at ht; cases ht
          · rw [hp1] at ht; cases ht
          · rcases i with _ | i
            · rw [hp2] at ht; cases ht
            · omega
        · simp [List.range_succ]
        · rw [if_pos]
          intro i hi
          rcases i with _ | _ | i
          · exact hp0
          · exact hp1
          · rcases i with _ | i
            · exact hp2
            · omega

theorem fetch_retry_policy_witness :
    (1 ≤ (fetchTrace3 (fun i => if i = 0 then .resp 503 none
        else .resp 200 none)).attemptsUsed ∧
      (fetchTrace3 (fun i => if i = 0 then .resp 503 none
        else .resp 200 none)).attemptsUsed ≤ MAX_RETRIES) ∧
    (∀ i : ℕ, i + 1 < (fetchTrace3 (fun i => if i = 0 then .resp 503 none
        else .resp 200 none)).attemptsUsed →
      isTerminal ((fun i => if i = 0 then AttemptOutcome.resp 503 none
        else .resp 200 none) i) = false) ∧
    (∀ i : ℕ, i < (fetchTrace3 (fun i => if i = 0 then .resp 503 none
        else .resp 200 none)).attemptsUsed →
      isTerminal ((fun i => if i = 0 then AttemptOutcome.resp 503 none
        else .resp 200 none) i) = true →
      (fetchTrace3 (fun i => if i = 0 then .resp 503 none
        else .resp 200 none)).attemptsUsed = i + 1 ∧
      (fetchTrace3 (fun i => if i = 0 then .resp 503 none
        else .resp 200 none)).events = [.success]) ∧
    ((fetchTrace3 (fun i => if i = 0 then .resp 503 none
        else .resp 200 none)).delays =
      (List.range ((fetchTrace3 (fun i => if i = 0 then .resp 503 none
        else .resp 200 none)).attemptsUsed - 1)).map retryDelay) ∧
    (∀ a : ℕ, retryDelay a = min (RETRY_BASE_DELAY * 2 ^ a) RETRY_MAX_DELAY) ∧
    ((fetchTrace3 (fun i => if i = 0 then .resp 503 none
        else .resp 200 none)).events =
      if ∀ i : ℕ, i < (fetchTrace3 (fun i => if i = 0 then .resp 503 none
          else .resp 200 none)).attemptsUsed →
        isTerminal ((fun i => if i = 0 then AttemptOutcome.resp 503 none
          else .resp 200 none) i) = false
      then [.failure] else [.success]) :=
  fetch_retry_policy (fun i => if i = 0 then .resp 503 none else .resp 200 none)

/-- A reference validator whose every attempt is a transport failure: the
fetch returns `None` and records one breaker failure. -/
theorem fetchWithRetry_allFail (cb : CircuitBreaker) (now : ℚ)
    (h : cb.state = .closed) :
    fetchWithRetry cb now (mkAttempts none) = (none, cb.recordFailure now) := by
  have hatt : fetchAttempts (mkAttempts none) (List.range MAX_RETRIES) =
      ⟨none, [.failure], [retryDelay 0, retryDelay 1], 3⟩ := rfl
  simp [fetchWithRetry, CircuitBreaker.canExecute, h, hatt]

/-- A reference validator answering 200 with a well-formed round on the
first attempt: the fetch returns the response and records a success. -/
theorem fetchWithRetry_roundResp (cb : CircuitBreaker) (now : ℚ) (r : Int)
    (h : cb.state = .closed) :
    fetchWithRetry cb now (mkAttempts (some r)) =
      (some ⟨200, some (.obj [("success", .bool true),
        ("uptime", .obj [("last_round", .int r)])])⟩, cb.recordSuccess) := by
  have hatt : fetchAttempts (mkAttempts (some r)) (List.range MAX_RETRIES) =
      ⟨some ⟨200, some (.obj [("success", .bool true),
        ("uptime", .obj [("last_round", .int r)])])⟩, [.success], [], 1⟩ := rfl
  simp [fetchWithRetry, CircuitBreaker.canExecute, h, hatt]

/-- The round extracted from a well-formed reference payload. -/
theorem extractRound_roundResp (r : Int) (h : r ≠ 0) :
    extractRound (.obj [("success", .bool true),
      ("uptime", .obj [("last_round", .int r)])]) = .ok (some r) := by
  simp [extractRound, JVal.pyGet, JVal.lookup, JVal.truthy, JVal.hasKey,
    JVal.index, JVal.isInstInt, JVal.toInt, bind, Except.bind, pure,
    Except.pure, h]

/-- The reference-validator loop collects exactly the successfully reported
rounds, in order, and consumes one fetch per reference validator. -/
theorem refLoop_spec (g : ℕ → Option Int) (now : ℚ)
    (hg : ∀ j r, g j = some r → r ≠ 0) :
    ∀ (ids : List ℕ) (k : ℕ) (cb : CircuitBreaker) (rounds : List Int),
      (cb.state = .closed ∨ ids = []) →
      cb.failure_count + ids.length ≤ cb.failure_threshold →
      ∃ cb', refLoop (mkRefEnv g) now ids k cb rounds =
        .ok (rounds ++ collectRounds g k ids.length, cb', k + ids.length) := by
  intro ids
  induction ids with
  | nil =>
    intro k cb rounds _ _
    exact ⟨cb, by simp [refLoop, collectRounds]⟩
  | cons i rest ih =>
    intro k cb rounds hcl hthr
    have hclosed : cb.state = .closed := by
      rcases hcl with h | h
      · exact h
      · cases h
    rw [List.length_cons] at hthr
    cases hk : g k with
    | none =>
      have hfetch := fetchWithRetry_allFail cb now hclosed
      have hrec : refLoop (mkRefEnv g) now (i :: rest) k cb rounds =
          refLoop (mkRefEnv g) now rest (k + 1) (cb.recordFailure now) rounds := by
        simp only [refLoop, mkRefEnv, hk, hfetch]
      rw [hrec]
      have hnext : (cb.recordFailure now).state = .closed ∨ rest = [] := by
        by_cases hr : rest = []
        · exact Or.inr hr
        · left
          have hlen : 1 ≤ rest.length := by
            cases rest with
            | nil => exact absurd rfl hr
            | cons _ _ => simp
          simp only [CircuitBreaker.recordFailure]
          rw [if_neg (by omega)]
          exact hclosed
      obtain ⟨cb', hcb'⟩ := ih (k + 1) (cb.recordFailure now) rounds hnext
        (by simp only [CircuitBreaker.recordFailure]; omega)
      refine ⟨cb', ?_⟩
      rw [hcb']
      have hcollect : collectRounds g k (rest.length + 1) =
          collectRounds g (k + 1) rest.length := by
        simp [collectRounds, hk]
      simp only [List.length_cons]
      rw [hcollect]
      have : k + 1 + rest.length = k + (rest.length + 1) := by omega
      rw [this]
    | some r =>
      have hfetch := fetchWithRetry_roundResp cb now r hclosed
      have hrec : refLoop (mkRefEnv g) now (i :: rest) k cb rounds =
          refLoop (mkRefEnv g) now rest (k + 1) cb.recordSuccess
            (rounds ++ [r]) := by
        simp only [refLoop, mkRefEnv, hk, hfetch]
        simp [extractRound_roundResp r (hg k r hk), bind, Except.bind]
      rw [hrec]
      obtain ⟨cb', hcb'⟩ := ih (k + 1) cb.recordSuccess (rounds ++ [r])
        (Or.inl rfl) (by simp [CircuitBreaker.recordSuccess]; omega)
      refine ⟨cb', ?_⟩
      rw [hcb']
      have hcollect : collectRounds g k (rest.length + 1) =
          r :: collectRounds g (k + 1) rest.length := by
        simp [collectRounds, hk]
      simp only [List.length_cons]
      rw [hcollect]
      have : k + 1 + rest.length = k + (rest.length + 1) := by omega
      rw [this]
      simp

/-- C6: in the multi-validator fallback, the resolved round is the maximum
of the successfully reported reference rounds and is cached as fresh
(`is_from_cache = false`, round cache updated at `now`); when every
reference query fails, the previously cached round is returned marked as
cache-derived regardless of its TTL, and the result is `None` only when the
round cache was never populated. -/
theorem round_resolution_max_and_stale_fallback (g : ℕ → Option Int)
    (cached : Option (Int × ℚ)) (now : ℚ)
    (hg : ∀ j r, g j = some r → r ≠ 0)
    (hstale : ∀ r t, cached = some (r, t) → NETWORK_ROUND_TTL ≤ now - t) :
    (collectRounds g 0 5 ≠ [] →
      ∃ cb', getCurrentNetworkRound ⟨none, cached, {}⟩ now none (mkRefEnv g) =
        .ok ((some (pyMax (collectRounds g 0 5)), false),
          ⟨none, some (pyMax (collectRounds g 0 5), now), cb'⟩, 5)) ∧
    (collectRounds g 0 5 = [] →
      ∃ cb', getCurrentNetworkRound ⟨none, cached, {}⟩ now none (mkRefEnv g) =
        .ok ((cached.map Prod.fst, (cached.map Prod.fst).isSome),
          ⟨none, cached, cb'⟩, 5)) := by
  obtain ⟨cb', hloop⟩ := refLoop_spec g now hg REFERENCE_VALIDATOR_IDS 0
    ({} : CircuitBreaker) [] (Or.inl rfl)
    (by norm_num [REFERENCE_VALIDATOR_IDS, CIRCUIT_BREAKER_FAILURE_THRESHOLD])
  have hlen : REFERENCE_VALIDATOR_IDS.length = 5 := rfl
  rw [hlen] at hloop
  have hstale' : ∀ p : Int × ℚ, cached = some p → ¬(now - p.2 < NETWORK_ROUND_TTL) :=
    fun p hp => not_lt.2 (hstale p.1 p.2 (by rw [hp]))
  constructor <;> intro hc <;> refine ⟨cb', ?_⟩ <;>
  · rcases cached with _ | ⟨r, t⟩ <;>
      simp only [getCurrentNetworkRound, hloop, List.nil_append, bind,
        Except.bind, pure, Except.pure] <;>
      first
      | (simp only [if_neg (hstale' (r, t) rfl)]
         simp [hloop, bind, Except.bind, hc, pure, Except.pure])
      | simp [hloop, bind, Except.bind, hc, pure, Except.pure]

theorem round_resolution_witness :
    ∃ cb', getCurrentNetworkRound ⟨none, some (500, 0), {}⟩ 1000 none
        (mkRefEnv gEx) =
      .ok ((some 150, false), ⟨none, some (150, 1000), cb'⟩, 5) :=
  (round_resolution_max_and_stale_fallback gEx (some (500, 0)) 1000
    (by intro j r h
        rcases j with _ | _ | _ | j <;> simp [gEx] at h <;> omega)
    (by intro r t h
        rw [Option.some.injEq, Prod.mk.injEq] at h
        rw [← h.2]
        norm_num [NETWORK_ROUND_TTL])).1
    (by decide)

/-- C1: `get_validator_uptime` does not always resolve to a record, the
cached record or `None`: on a 200 response whose JSON body is the non-empty
array `[1]`, `_parse_uptime_response` evaluates `data.get(...)` on a list
and the call raises `AttributeError` to its caller (contradicting the
error-handling design and the parser's own docstring, which promise `None`
on invalid data). The five reference-validator queries succeed normally
first, so the failure is exactly the body-shape handling. -/
theorem get_validator_uptime_raises_on_array_payload :
    getValidatorUptime {} (some "b0bsecp") 1000 3600 none crashEnv =
      .error .attributeError := by
  rfl
